import Mathlib

/-!
Verification of the inbox-management dashboard client of the Suggestions
repository (`src/app/(app)/dashboard/page.tsx`), as a shallow embedding.

The dashboard keeps React state: `messages` (the full last-fetched list),
`filteredMessages` (the currently displayed list), `filter` (the selected
category), and a form-bound `acceptMessages` flag.  Each event handler of
the component is embedded as a pure function on a `DashState`; server
round-trips (axios calls) are modelled by passing the server's response —
success payload or failure — as an explicit argument, since the handlers
are plain request/response calls.  Toast notifications are modelled as a
list of (title, description) pairs appended to the state.
-/

namespace Suggestions

/-- The category filter options of the dashboard dropdown:
`type FilterOptions = "all" | "feedback" | "suggestion" | "appreciation"`. -/
inductive FilterOptions where
  | all
  | feedback
  | suggestion
  | appreciation
  deriving DecidableEq, Repr

/-- The string value each filter option has in the `<select>` element
(`e.target.value`); `message.purpose === selectedFilter` compares the
message's purpose string against this value. -/
def FilterOptions.toStr : FilterOptions → String
  | .all => "all"
  | .feedback => "feedback"
  | .suggestion => "suggestion"
  | .appreciation => "appreciation"

/-- A message as the dashboard uses it: the fields read by the component
are `_id` (compared on delete) and `purpose` (compared on filter);
`content` is carried along for display. -/
structure Message where
  _id : String
  content : String
  purpose : String
  deriving DecidableEq, Repr

/-- A toast notification: title and description, as passed to `toast({...})`. -/
structure Toast where
  title : String
  description : String
  deriving DecidableEq, Repr

/-- The local React state of `UserDashboard` relevant to the claims:
`messages` and `filteredMessages` (two `useState` lists), the selected
`filter`, the form-bound `acceptMessages` flag, and the toasts emitted so
far. -/
structure DashState where
  messages : List Message
  filteredMessages : List Message
  filter : FilterOptions
  acceptMessages : Bool
  toasts : List Toast
  deriving DecidableEq, Repr

/-- Outcome of an awaited axios call: `ok` carries the successful response
payload, `error` carries the optional server-supplied error message
(`axiosError.response?.data.message`). -/
inductive FetchResult (α : Type) where
  | ok (data : α)
  | error (errMessage : Option String)
  deriving DecidableEq, Repr

/-- `handleDeleteMessage(messageId)`:
`const updatedMessages = messages.filter((message) => message._id !== messageId);
setMessages(updatedMessages); setFilteredMessages(updatedMessages);` -/
def handleDeleteMessage (s : DashState) (messageId : String) : DashState :=
  let updatedMessages := s.messages.filter (fun message => message._id != messageId)
  { s with messages := updatedMessages, filteredMessages := updatedMessages }

/-- `fetchAcceptMessages`: GET `/api/accept-messages`; on success
`setValue("acceptMessages", response.data.isAcceptingMessage)`; on error a
destructive toast titled "Error" with the server message or the default
description, and no state change. -/
def fetchAcceptMessages (s : DashState) (result : FetchResult Bool) : DashState :=
  match result with
  | .ok isAcceptingMessage => { s with acceptMessages := isAcceptingMessage }
  | .error errMessage =>
      { s with toasts :=
          s.toasts ++ [⟨"Error", errMessage.getD "Failed to fetch message settings"⟩] }

/-- `fetchMessages(refresh)`: GET `/api/get-messages`; on success
`const fetchedMessages = response.data.messages || [];
setMessages(fetchedMessages); setFilteredMessages(fetchedMessages);` and,
when `refresh` is true, a "Refreshed Messages" toast; on error a
destructive toast titled "Error" and no state change.  The success payload
is `Option (List Message)` because `response.data.messages` may be absent
or null, which `|| []` replaces by the empty list. -/
def fetchMessages (s : DashState) (refresh : Bool)
    (result : FetchResult (Option (List Message))) : DashState :=
  match result with
  | .ok respMessages =>
      let fetchedMessages := respMessages.getD []
      { s with
        messages := fetchedMessages,
        filteredMessages := fetchedMessages,
        toasts := s.toasts ++
          (if refresh then [⟨"Refreshed Messages", "Showing latest messages"⟩] else []) }
  | .error errMessage =>
      { s with toasts :=
          s.toasts ++ [⟨"Error", errMessage.getD "Failed to fetch messages"⟩] }

/-- The value `handleSwitchChange` POSTs to `/api/accept-messages`:
`{ acceptMessages: !acceptMessages }`. -/
def handleSwitchChangeRequest (s : DashState) : Bool :=
  !s.acceptMessages

/-- The local state while the POST of `handleSwitchChange` is awaited:
no `setValue` has run yet, so the state — including the `acceptMessages`
value driving the `Switch`'s `checked` prop — is unchanged. -/
def handleSwitchChangePending (s : DashState) : DashState :=
  s

/-- `handleSwitchChange`: POST `!acceptMessages`; on success
`setValue("acceptMessages", !acceptMessages)` and a toast titled by
`response.data.message`; on error a destructive toast titled "Error" and
no change to `acceptMessages`. -/
def handleSwitchChange (s : DashState) (result : FetchResult String) : DashState :=
  match result with
  | .ok respMessage =>
      { s with acceptMessages := !s.acceptMessages,
               toasts := s.toasts ++ [⟨respMessage, ""⟩] }
  | .error errMessage =>
      { s with toasts :=
          s.toasts ++ [⟨"Error", errMessage.getD "Failed to update message settings"⟩] }

/-- `handleFilterChange`: `setFilter(selectedFilter)`; then
`setFilteredMessages(messages)` when the selection is `"all"`, else
`setFilteredMessages(messages.filter((message) => message.purpose === selectedFilter))`. -/
def handleFilterChange (s : DashState) (selectedFilter : FilterOptions) : DashState :=
  if selectedFilter = FilterOptions.all then
    { s with filter := selectedFilter, filteredMessages := s.messages }
  else
    { s with filter := selectedFilter,
             filteredMessages :=
               s.messages.filter (fun message => message.purpose == selectedFilter.toStr) }

/-- The figure rendered under "Total Messages Received:":
`<CountUp ... to={filteredMessages.length} ... />`. -/
def totalMessagesShown (s : DashState) : Nat :=
  s.filteredMessages.length

/-! Concrete example values used by counterexamples and witnesses. -/

/-- A message with purpose `feedback`. -/
def exMsgFeedback : Message := ⟨"m1", "nice ui", "feedback"⟩

/-- A message with purpose `suggestion`. -/
def exMsgSuggestion : Message := ⟨"m2", "add dark mode", "suggestion"⟩

/-- A dashboard state holding two messages of different purposes, with no
filter applied yet. -/
def exStateAll : DashState :=
  ⟨[exMsgFeedback, exMsgSuggestion], [exMsgFeedback, exMsgSuggestion],
   FilterOptions.all, true, []⟩

/-- A dashboard state in which the `feedback` filter is active, so the
displayed list is a strict subsequence of the full list. -/
def exStateFeedback : DashState :=
  ⟨[exMsgFeedback, exMsgSuggestion], [exMsgFeedback],
   FilterOptions.feedback, true, []⟩

/-- A dashboard state with the acceptance toggle off. -/
def exStateOff : DashState := ⟨[], [], FilterOptions.all, false, []⟩

/-- C1: `handleFilterChange` sets the displayed list to the subsequence of
the full last-fetched list whose `purpose` equals the selected category
(for `feedback`, `suggestion`, `appreciation`), and to the full list for
`all`; the result is computed from the full list only — changing the
previously displayed list does not change the outcome. -/
theorem handleFilterChange_displays_matching_subsequence
    (s : DashState) (c : FilterOptions) (other : List Message) :
    (handleFilterChange s c).filteredMessages =
      (if c = FilterOptions.all then s.messages
       else s.messages.filter (fun m => m.purpose == c.toStr)) ∧
    (handleFilterChange { s with filteredMessages := other } c).filteredMessages =
      (handleFilterChange s c).filteredMessages := by
  by_cases h : c = FilterOptions.all <;> simp [handleFilterChange, h]

/-- C2 counterexample: in a state with two messages of different purposes,
selecting the `feedback` filter makes the rendered "Total Messages
Received" figure (`filteredMessages.length`) differ from the number of
messages in the full last-fetched list. -/
theorem countUp_differs_from_full_count :
    totalMessagesShown (handleFilterChange exStateAll FilterOptions.feedback) ≠
      (handleFilterChange exStateAll FilterOptions.feedback).messages.length := by
  decide

/-- C2 (amended): the "Total Messages Received" figure equals the length of
the currently displayed list: after selecting category `c` it is the number
of messages whose purpose matches `c`, and it equals the full last-fetched
count when `all` is selected. -/
theorem totalMessagesShown_eq_displayed_length (s : DashState) (c : FilterOptions) :
    totalMessagesShown (handleFilterChange s c) =
      (if c = FilterOptions.all then s.messages
       else s.messages.filter (fun m => m.purpose == c.toStr)).length ∧
    totalMessagesShown (handleFilterChange s FilterOptions.all) = s.messages.length := by
  by_cases h : c = FilterOptions.all <;>
    simp [totalMessagesShown, handleFilterChange, h]

/-- C3: filtering is a pure projection of the stored full list: selecting
`feedback`, then `all`, then `feedback` again (no refetch in between)
displays the identical list both times `feedback` is selected, and no
filter selection mutates the stored full message list. -/
theorem handleFilterChange_pure (s : DashState) :
    (handleFilterChange (handleFilterChange (handleFilterChange s
        FilterOptions.feedback) FilterOptions.all)
        FilterOptions.feedback).filteredMessages =
      (handleFilterChange s FilterOptions.feedback).filteredMessages ∧
    ∀ c : FilterOptions, (handleFilterChange s c).messages = s.messages := by
  constructor
  · simp [handleFilterChange]
  · intro c
    by_cases h : c = FilterOptions.all <;> simp [handleFilterChange, h]

/-- C4 counterexample: with the `feedback` filter active, deleting an id
that is present in no message leaves the full list unchanged but resets
the displayed list to the full list, so the displayed list is NOT equal
to the prior displayed list. -/
theorem delete_absent_id_changes_displayed :
    exStateFeedback.messages.all (fun m => m._id != "zzz") = true ∧
    (handleDeleteMessage exStateFeedback "zzz").filteredMessages ≠
      exStateFeedback.filteredMessages := by
  decide

/-- C4 (amended): `handleDeleteMessage` keeps in the full local list
exactly the messages whose `_id` differs from `messageId` and sets the
displayed list to that same remaining list; afterwards neither list
contains a message with that id; the operation is idempotent on the whole
local state; and deleting an id present in no message leaves the full list
unchanged while resetting the displayed list to the full list. -/
theorem handleDeleteMessage_spec (s : DashState) (messageId : String) :
    (handleDeleteMessage s messageId).messages =
      s.messages.filter (fun m => m._id != messageId) ∧
    (handleDeleteMessage s messageId).filteredMessages =
      s.messages.filter (fun m => m._id != messageId) ∧
    (handleDeleteMessage s messageId).messages.all
      (fun m => m._id != messageId) = true ∧
    (handleDeleteMessage s messageId).filteredMessages.all
      (fun m => m._id != messageId) = true ∧
    handleDeleteMessage (handleDeleteMessage s messageId) messageId =
      handleDeleteMessage s messageId ∧
    (s.messages.all (fun m => m._id != messageId) = true →
      (handleDeleteMessage s messageId).messages = s.messages ∧
      (handleDeleteMessage s messageId).filteredMessages = s.messages) := by
  refine ⟨rfl, rfl, ?_, ?_, ?_, ?_⟩
  · simp only [handleDeleteMessage, List.all_eq_true]
    exact fun m hm => (List.mem_filter.mp hm).2
  · simp only [handleDeleteMessage, List.all_eq_true]
    exact fun m hm => (List.mem_filter.mp hm).2
  · simp [handleDeleteMessage, List.filter_filter]
  · intro h
    have hf : s.messages.filter (fun m => m._id != messageId) = s.messages :=
      List.filter_eq_self.mpr (List.all_eq_true.mp h)
    exact ⟨by simp [handleDeleteMessage, hf], by simp [handleDeleteMessage, hf]⟩

/-- C4 witness: applying `handleDeleteMessage_spec` to a concrete state and
an id present in no message discharges the absent-id hypothesis: the full
list is unchanged and the displayed list becomes the full list. -/
theorem handleDeleteMessage_spec_witness :
    exStateFeedback.messages.all (fun m => m._id != "absent") = true ∧
    (handleDeleteMessage exStateFeedback "absent").messages =
      exStateFeedback.messages ∧
    (handleDeleteMessage exStateFeedback "absent").filteredMessages =
      exStateFeedback.messages :=
  ⟨by decide, (handleDeleteMessage_spec exStateFeedback "absent").2.2.2.2.2 (by decide)⟩

/-- C5: a failed `fetchMessages` leaves both the stored full list and the
displayed list unchanged, and a failed `fetchAcceptMessages` leaves the
local `acceptMessages` value unchanged; each failure appends exactly one
"Error" toast carrying the server message or the default description. -/
theorem fetch_failure_preserves_state (s : DashState) (refresh : Bool)
    (e1 e2 : Option String) :
    (fetchMessages s refresh (FetchResult.error e1)).messages = s.messages ∧
    (fetchMessages s refresh (FetchResult.error e1)).filteredMessages =
      s.filteredMessages ∧
    (fetchMessages s refresh (FetchResult.error e1)).toasts =
      s.toasts ++ [⟨"Error", e1.getD "Failed to fetch messages"⟩] ∧
    (fetchAcceptMessages s (FetchResult.error e2)).acceptMessages =
      s.acceptMessages ∧
    (fetchAcceptMessages s (FetchResult.error e2)).toasts =
      s.toasts ++ [⟨"Error", e2.getD "Failed to fetch message settings"⟩] :=
  ⟨rfl, rfl, rfl, rfl, rfl⟩

/-- C6 counterexample: with the toggle off, while the POST issued by
`handleSwitchChange` is still pending the displayed `acceptMessages` value
is still `false`, not the requested new value `true` — the new toggle
state is not displayed optimistically. -/
theorem switch_pending_shows_old_value :
    (handleSwitchChangePending exStateOff).acceptMessages = false ∧
    handleSwitchChangeRequest exStateOff = true := by
  decide

/-- C6 (amended): the toggle is not optimistic: while the server update
is pending the displayed value keeps the previous value, a failed
`handleSwitchChange` leaves the local `acceptMessages` value equal to its
value before the flip, and only a successful update sets it to the
negation. -/
theorem handleSwitchChange_pessimistic_update (s : DashState)
    (e : Option String) (respMessage : String) :
    (handleSwitchChangePending s).acceptMessages = s.acceptMessages ∧
    (handleSwitchChange s (FetchResult.error e)).acceptMessages =
      s.acceptMessages ∧
    (handleSwitchChange s (FetchResult.ok respMessage)).acceptMessages =
      !s.acceptMessages :=
  ⟨rfl, rfl, rfl⟩

/-- C7: `handleSwitchChange` (whether it succeeds or fails) and
`fetchAcceptMessages` leave the full message list and the displayed
filtered list exactly as they were. -/
theorem switch_does_not_touch_messages (s : DashState)
    (r1 : FetchResult String) (r2 : FetchResult Bool) :
    (handleSwitchChange s r1).messages = s.messages ∧
    (handleSwitchChange s r1).filteredMessages = s.filteredMessages ∧
    (fetchAcceptMessages s r2).messages = s.messages ∧
    (fetchAcceptMessages s r2).filteredMessages = s.filteredMessages := by
  cases r1 <;> cases r2 <;> exact ⟨rfl, rfl, rfl, rfl⟩

/-- C8: `handleSwitchChange` requests the negation of the current local
`acceptMessages` value, on success sets the local value to that negation,
and two consecutive successful calls restore the original value. -/
theorem handleSwitchChange_toggles (s : DashState) (m1 m2 : String) :
    handleSwitchChangeRequest s = !s.acceptMessages ∧
    (handleSwitchChange s (FetchResult.ok m1)).acceptMessages =
      !s.acceptMessages ∧
    (handleSwitchChange (handleSwitchChange s (FetchResult.ok m1))
        (FetchResult.ok m2)).acceptMessages = s.acceptMessages := by
  refine ⟨rfl, rfl, ?_⟩
  simp [handleSwitchChange]

/-- C9: `handleDeleteMessage` sets the displayed list to the entire
remaining full list, and a successful `fetchMessages` sets the displayed
list to the entire fetched list; neither reapplies the selected category
filter, which is left unchanged even when it is not `all`. -/
theorem delete_and_fetch_reset_displayed (s : DashState) (messageId : String)
    (refresh : Bool) (msgs : Option (List Message)) :
    (handleDeleteMessage s messageId).filteredMessages =
      (handleDeleteMessage s messageId).messages ∧
    (handleDeleteMessage s messageId).filter = s.filter ∧
    (fetchMessages s refresh (FetchResult.ok msgs)).filteredMessages =
      (fetchMessages s refresh (FetchResult.ok msgs)).messages ∧
    (fetchMessages s refresh (FetchResult.ok msgs)).messages = msgs.getD [] ∧
    (fetchMessages s refresh (FetchResult.ok msgs)).filter = s.filter :=
  ⟨rfl, rfl, rfl, rfl, rfl⟩

/-- C10: a successful get-messages response whose `messages` field is
absent or null is treated as an empty inbox: both the full local list and
the displayed list become the empty list. -/
theorem fetchMessages_null_is_empty (s : DashState) (refresh : Bool) :
    (fetchMessages s refresh (FetchResult.ok none)).messages = [] ∧
    (fetchMessages s refresh (FetchResult.ok none)).filteredMessages = [] :=
  ⟨rfl, rfl⟩

end Suggestions
